import Mathlib

/-!
Shallow embedding of the queue-monitor repository (two Python files:
`examples/rq/monitor.py` with class `QueueMonitor`, and
`examples/celery/monitor.py` with class `CeleryQueueMonitor`).

Modelling conventions:
* Timestamps are minutes as `Int` (the code uses `datetime.utcnow()` and
  compares differences against `timedelta(minutes=...)`); each check call
  receives a single `now` for its `utcnow()` calls.
* The `last_alert` instance dictionary (string key to timestamp) is the
  function `AlertState := String → Option Int`.
* The Python status dictionaries are the structure `Status` whose optional
  fields mirror exactly the keys each check puts in its dict; `format_alert`
  does the same field-presence dispatch as the source.
* Backend reads (`redis.llen`, `redis.scard`, `Worker.all`, `scan_iter`)
  are external collaborators: each check takes the read's outcome as an
  argument.  Reads the source does not guard with `try/except` are
  `Except String _` handled at the call site of the read (an `.error`
  propagates, as an uncaught Python exception does); the Celery
  `scan_iter` loops, which the source wraps in `try/except Exception: pass`,
  are a list of keys collected before an optional swallowed exception.
* `requests.post` to the webhook is the argument `post : WebhookResult`;
  `send_alert` catches `requests.RequestException` and logs, so it is a
  total function returning its `print` lines.
-/

namespace QueueMonitor

/-- Timestamps in minutes (the cooldown comparisons in the source are
`timedelta(minutes=15/30/5)`). -/
abbrev Timestamp := Int

/-- The `self.last_alert` dictionary: metric key to time of last alert. -/
abbrev AlertState := String → Option Timestamp

/-- The empty `last_alert` dictionary (`{}` set in `__init__`). -/
def emptyState : AlertState := fun _ => none

/-- Outcome of the `requests.post` call to the configured webhook: the
POST may return a response with a success status, return a response with a
non-success (4xx/5xx) status, or raise `requests.RequestException`.  The
source discards the returned `Response` and never calls
`raise_for_status`, so the two returned-response cases are
indistinguishable to it. -/
inductive WebhookResult where
  | success
  | httpError (code : Nat)
  | requestException (msg : String)
deriving DecidableEq, Repr

/-- A status dictionary as returned by the check methods.  Optional fields
mirror the keys the source puts in each dict; `status` and the other fields
present in every dict are plain. -/
structure Status where
  queue : Option String := none
  depth : Option Nat := none
  threshold : Option Nat := none
  failed_count : Option Nat := none
  workers : Option Nat := none
  active_tasks : Option Nat := none
  status : String
  timestamp : Option Timestamp := none
deriving DecidableEq, Repr

/-- Which check dispatched an alert (instrumentation of the `send_alert`
call sites; `celWorkers` is the Celery `check_workers`, whose state key has
no queue prefix). -/
inductive MetricClass where
  | depth
  | failed
  | workers
  | celWorkers
deriving DecidableEq, Repr

/-- The cooldown, in minutes, each call site compares against:
`timedelta(minutes=15)` for depth, `30` for failed jobs, `5` for workers
(both monitors). -/
def classCooldown : MetricClass → Int
  | .depth => 15
  | .failed => 30
  | .workers => 5
  | .celWorkers => 5

/-- The `last_alert` key each call site uses: `f"{queue_name}:depth"`,
`f"{queue_name}:failed"`, `f"{queue_name}:workers"`, and the bare
`"workers"` in the Celery monitor. -/
def classKey : MetricClass → String → String
  | .depth, q => q ++ ":depth"
  | .failed, q => q ++ ":failed"
  | .workers, q => q ++ ":workers"
  | .celWorkers, _ => "workers"

/-- A dispatched alert: which call site, under which `last_alert` key, at
which time `send_alert` was invoked. -/
structure Alert where
  cls : MetricClass
  key : String
  time : Timestamp
deriving DecidableEq, Repr

/-- The guard `if not last_alert_time or datetime.utcnow() - last_alert_time
> timedelta(minutes=C)` that every call site applies to
`self.last_alert.get(key)`. -/
def should_alert (key : String) (cooldown : Int) (now : Timestamp)
    (state : AlertState) : Bool :=
  match state key with
  | none => true
  | some t => decide (now - t > cooldown)

/-- The assignment `self.last_alert[key] = datetime.utcnow()`. -/
def record_alert (key : String) (now : Timestamp) (state : AlertState) :
    AlertState :=
  fun k => if k = key then some now else state k

/-- `QueueMonitor.format_alert`: dispatches on which keys are in the status
dict (`"depth" in status`, then `"failed_count"`, then `"workers"`), else
`str(status)`.  The `getD` defaults are never hit on dicts the source
builds: whenever `depth` is present so are `queue` and `threshold`, and
whenever `failed_count` or `workers` is present so is `queue`. -/
def format_alert (status : Status) : String :=
  match status.depth with
  | some d =>
      "🚨 Queue \x27" ++ status.queue.getD "" ++ "\x27 depth: " ++
        toString d ++ " (threshold: " ++ toString (status.threshold.getD 0) ++ ")"
  | none =>
    match status.failed_count with
    | some n =>
        "⚠️ Queue \x27" ++ status.queue.getD "" ++ "\x27 has " ++
          toString n ++ " failed jobs"
    | none =>
      match status.workers with
      | some _ =>
          "🔴 Queue \x27" ++ status.queue.getD "" ++ "\x27 has no active workers!"
      | none => reprStr status

/-- `CeleryQueueMonitor.format_alert`: only the `depth` and `workers`
branches exist, and the workers message does not mention a queue. -/
def celery_format_alert (status : Status) : String :=
  match status.depth with
  | some d =>
      "🚨 Queue \x27" ++ status.queue.getD "" ++ "\x27 depth: " ++
        toString d ++ " (threshold: " ++ toString (status.threshold.getD 0) ++ ")"
  | none =>
    match status.workers with
    | some _ => "🔴 No active Celery workers detected!"
    | none => reprStr status

/-- `send_alert` of either monitor: prints `[ALERT] ...`, then if a webhook
URL is configured POSTs to it with a 5 s timeout, catching
`requests.RequestException` and printing `[ERROR] ...`.  The `Response`
returned by `requests.post` is discarded without a status check, so a
non-success response prints nothing beyond the `[ALERT]` line, exactly as
a success does.  It returns its log lines and never raises. -/
def send_alert (alert_webhook : Option String) (post : WebhookResult)
    (message : String) : List String :=
  match alert_webhook with
  | none => ["[ALERT] " ++ message]
  | some _ =>
    match post with
    | .success => ["[ALERT] " ++ message]
    | .httpError _ => ["[ALERT] " ++ message]
    | .requestException e =>
        ["[ALERT] " ++ message, "[ERROR] Failed to send alert: " ++ e]

/-- What one check method returns and does: the status dict it returns, the
`last_alert` dictionary afterwards, the lines it printed, and the
`send_alert` invocations it made (as `Alert` records). -/
structure CheckResult where
  status : Status
  state : AlertState
  logs : List String
  alerts : List Alert

/-- `QueueMonitor.check_queue_depth` after the `llen` read returned
`length`: status is `ok` below the threshold, `alert` at or above; on
`alert`, if the key `f"{queue_name}:depth"` passes the 15-minute cooldown
guard, `send_alert` fires and the key is stamped with `utcnow()`. -/
def check_queue_depth (queue_depth_threshold : Nat)
    (alert_webhook : Option String) (post : WebhookResult)
    (queue_name : String) (length : Nat) (now : Timestamp)
    (last_alert : AlertState) : CheckResult :=
  let st : Status :=
    { queue := some queue_name, depth := some length,
      threshold := some queue_depth_threshold,
      status := if length < queue_depth_threshold then "ok" else "alert",
      timestamp := some now }
  if st.status = "alert" then
    if should_alert (queue_name ++ ":depth") 15 now last_alert then
      { status := st,
        state := record_alert (queue_name ++ ":depth") now last_alert,
        logs := send_alert alert_webhook post (format_alert st),
        alerts := [⟨.depth, queue_name ++ ":depth", now⟩] }
    else
      { status := st, state := last_alert, logs := [], alerts := [] }
  else
    { status := st, state := last_alert, logs := [], alerts := [] }

/-- `QueueMonitor.check_failed_jobs` after the `scard` read returned
`failed_count`: status is `ok` at zero, `warning` otherwise; on a nonzero
count, the key `f"{queue_name}:failed"` is guarded by a 30-minute
cooldown. -/
def check_failed_jobs (alert_webhook : Option String) (post : WebhookResult)
    (queue_name : String) (failed_count : Nat) (now : Timestamp)
    (last_alert : AlertState) : CheckResult :=
  let st : Status :=
    { queue := some queue_name, failed_count := some failed_count,
      status := if failed_count = 0 then "ok" else "warning",
      timestamp := some now }
  if failed_count > 0 then
    if should_alert (queue_name ++ ":failed") 30 now last_alert then
      { status := st,
        state := record_alert (queue_name ++ ":failed") now last_alert,
        logs := send_alert alert_webhook post (format_alert st),
        alerts := [⟨.failed, queue_name ++ ":failed", now⟩] }
    else
      { status := st, state := last_alert, logs := [], alerts := [] }
  else
    { status := st, state := last_alert, logs := [], alerts := [] }

/-- `QueueMonitor.check_workers` after `Worker.all` returned workers with
the given states: the source keeps those whose `state != "stopped"`, reports
their number, `ok` when positive and `critical` at zero; on `critical` the
key `f"{queue_name}:workers"` is guarded by a 5-minute cooldown. -/
def check_workers (alert_webhook : Option String) (post : WebhookResult)
    (queue_name : String) (workerStates : List String) (now : Timestamp)
    (last_alert : AlertState) : CheckResult :=
  let alive_workers := workerStates.filter (fun w => w ≠ "stopped")
  let st : Status :=
    { queue := some queue_name, workers := some alive_workers.length,
      status := if alive_workers.length > 0 then "ok" else "critical",
      timestamp := some now }
  if st.status = "critical" then
    if should_alert (queue_name ++ ":workers") 5 now last_alert then
      { status := st,
        state := record_alert (queue_name ++ ":workers") now last_alert,
        logs := send_alert alert_webhook post (format_alert st),
        alerts := [⟨.workers, queue_name ++ ":workers", now⟩] }
    else
      { status := st, state := last_alert, logs := [], alerts := [] }
  else
    { status := st, state := last_alert, logs := [], alerts := [] }

/-- `CeleryQueueMonitor.check_queue_depth` after `get_queue_length`
(a bare `llen`) returned `length`: same logic as the RQ depth check, with
the Celery `format_alert`. -/
def celery_check_queue_depth (queue_depth_threshold : Nat)
    (alert_webhook : Option String) (post : WebhookResult)
    (queue_name : String) (length : Nat) (now : Timestamp)
    (last_alert : AlertState) : CheckResult :=
  let st : Status :=
    { queue := some queue_name, depth := some length,
      threshold := some queue_depth_threshold,
      status := if length < queue_depth_threshold then "ok" else "alert",
      timestamp := some now }
  if st.status = "alert" then
    if should_alert (queue_name ++ ":depth") 15 now last_alert then
      { status := st,
        state := record_alert (queue_name ++ ":depth") now last_alert,
        logs := send_alert alert_webhook post (celery_format_alert st),
        alerts := [⟨.depth, queue_name ++ ":depth", now⟩] }
    else
      { status := st, state := last_alert, logs := [], alerts := [] }
  else
    { status := st, state := last_alert, logs := [], alerts := [] }

/-- `CeleryQueueMonitor.check_workers`: appends every key the
`scan_iter("celery:*:pidbox:*")` loop yields, inside
`try/except Exception: pass` — on an exception the keys collected so far
(`scanKeys`) are kept and the error (`scanErr`) is swallowed.  Zero keys is
`critical`, guarded under the bare key `"workers"` with a 5-minute
cooldown. -/
def celery_check_workers (alert_webhook : Option String)
    (post : WebhookResult) (scanKeys : List String)
    (scanErr : Option String) (now : Timestamp) (last_alert : AlertState) :
    CheckResult :=
  let workers := scanKeys
  let st : Status :=
    { workers := some workers.length,
      status := if workers.length > 0 then "ok" else "critical",
      timestamp := some now }
  if st.status = "critical" then
    if should_alert "workers" 5 now last_alert then
      { status := st,
        state := record_alert "workers" now last_alert,
        logs := send_alert alert_webhook post (celery_format_alert st),
        alerts := [⟨.celWorkers, "workers", now⟩] }
    else
      { status := st, state := last_alert, logs := [], alerts := [] }
  else
    { status := st, state := last_alert, logs := [], alerts := [] }

/-- `CeleryQueueMonitor.check_active_tasks`: the scan loop body is `pass`
and exceptions are swallowed, so `active_count` is always 0 and the dict is
always `ok` (it has no queue, timestamp or alert logic). -/
def check_active_tasks (scanErr : Option String) : Status :=
  { active_tasks := some 0, status := "ok" }

/-- One metric evaluation inside a monitor loop body, carrying the outcome
of its backend read and of a potential webhook POST at that moment.  The RQ
reads (`llen`, `scard`, `Worker.all`) and the Celery `llen` sit outside any
`try`, so those are `Except`; the Celery worker scan is the guarded
key-collection. -/
inductive CheckEvent where
  | rqDepth (queue : String) (read : Except String Nat)
      (post : WebhookResult) (now : Timestamp)
  | rqFailed (queue : String) (read : Except String Nat)
      (post : WebhookResult) (now : Timestamp)
  | rqWorkers (queue : String) (read : Except String (List String))
      (post : WebhookResult) (now : Timestamp)
  | celDepth (queue : String) (read : Except String Nat)
      (post : WebhookResult) (now : Timestamp)
  | celWorkers (scanKeys : List String) (scanErr : Option String)
      (post : WebhookResult) (now : Timestamp)

/-- Run one metric check: an `.error` read raises out of the check (no
handler in either `monitor` loop); the Celery worker scan never raises. -/
def step (queue_depth_threshold : Nat) (alert_webhook : Option String) :
    CheckEvent → AlertState → Except String CheckResult
  | .rqDepth q read post now, s =>
    match read with
    | .error e => .error e
    | .ok n =>
        .ok (check_queue_depth queue_depth_threshold alert_webhook post q n now s)
  | .rqFailed q read post now, s =>
    match read with
    | .error e => .error e
    | .ok n => .ok (check_failed_jobs alert_webhook post q n now s)
  | .rqWorkers q read post now, s =>
    match read with
    | .error e => .error e
    | .ok ws => .ok (check_workers alert_webhook post q ws now s)
  | .celDepth q read post now, s =>
    match read with
    | .error e => .error e
    | .ok n =>
        .ok (celery_check_queue_depth queue_depth_threshold alert_webhook post q n now s)
  | .celWorkers keys scanErr post now, s =>
      .ok (celery_check_workers alert_webhook post keys scanErr now s)

/-- What a (partial) run of the monitor loop produced: final `last_alert`,
the status dicts of the checks that ran, every alert dispatched, the log
lines, and the uncaught exception that aborted the loop, when one did. -/
structure TraceResult where
  state : AlertState
  statuses : List Status
  alerts : List Alert
  logs : List String
  err : Option String

/-- The monitor loop body unrolled over a list of metric evaluations
(`monitor` iterates its checks over the queue names, forever): checks run
sequentially against the shared `last_alert`, and the first uncaught read
exception aborts the loop, leaving the remaining events unevaluated. -/
def runTrace (queue_depth_threshold : Nat) (alert_webhook : Option String) :
    List CheckEvent → AlertState → TraceResult
  | [], s => ⟨s, [], [], [], none⟩
  | e :: rest, s =>
    match step queue_depth_threshold alert_webhook e s with
    | .error msg => ⟨s, [], [], [], some msg⟩
    | .ok r =>
      let t := runTrace queue_depth_threshold alert_webhook rest r.state
      ⟨t.state, r.status :: t.statuses, r.alerts ++ t.alerts,
        r.logs ++ t.logs, t.err⟩

/-- Cooldown separation between two alerts (in dispatch order): if they
share a `last_alert` key, the later one fires more than the earlier one's
cooldown after it. -/
def cdR (a b : Alert) : Prop :=
  a.key = b.key → b.time - a.time > classCooldown a.cls

/-- Every alert the code dispatches uses the key its call site builds. -/
def GoodKey (a : Alert) : Prop :=
  ∃ q, a.key = classKey a.cls q

/-- Invariant tying `last_alert` to the alerts dispatched so far: alerts
are cooldown-separated, carry call-site keys, and each alert's key holds a
timestamp at least as late as that alert. -/
def Inv (s : AlertState) (l : List Alert) : Prop :=
  l.Pairwise cdR ∧ (∀ a ∈ l, GoodKey a) ∧
    ∀ a ∈ l, ∃ t, s a.key = some t ∧ a.time ≤ t

theorem append_ne_of_reverse_head (q₁ q₂ s₁ s₂ : String) (c₁ c₂ : Char)
    (t₁ t₂ : List Char) (h₁ : s₁.data.reverse = c₁ :: t₁)
    (h₂ : s₂.data.reverse = c₂ :: t₂) (hc : c₁ ≠ c₂) :
    q₁ ++ s₁ ≠ q₂ ++ s₂ := by
  intro h
  have hd := congrArg String.data h
  rw [String.data_append, String.data_append] at hd
  have hr := congrArg List.reverse hd
  rw [List.reverse_append, List.reverse_append, h₁, h₂] at hr
  simp only [List.cons_append] at hr
  exact hc (List.head_eq_of_cons_eq hr)

theorem append_ne_of_reverse_head_lit (q₁ s₁ s₂ : String) (c₁ c₂ : Char)
    (t₁ t₂ : List Char) (h₁ : s₁.data.reverse = c₁ :: t₁)
    (h₂ : s₂.data.reverse = c₂ :: t₂) (hc : c₁ ≠ c₂) :
    q₁ ++ s₁ ≠ s₂ := by
  intro h
  have hd := congrArg String.data h
  rw [String.data_append] at hd
  have hr := congrArg List.reverse hd
  rw [List.reverse_append, h₁, h₂] at hr
  simp only [List.cons_append] at hr
  exact hc (List.head_eq_of_cons_eq hr)

theorem append_colon_workers_ne (q : String) : q ++ ":workers" ≠ "workers" := by
  intro h
  have hd := congrArg String.data h
  rw [String.data_append] at hd
  have hl := congrArg List.length hd
  rw [List.length_append] at hl
  have h8 : (":workers".data).length = 8 := rfl
  have h7 : ("workers".data).length = 7 := rfl
  omega

theorem depth_key_ne_failed_key (q₁ q₂ : String) :
    q₁ ++ ":depth" ≠ q₂ ++ ":failed" :=
  append_ne_of_reverse_head q₁ q₂ _ _ 'h' 'd' ['t', 'p', 'e', 'd', ':']
    ['e', 'l', 'i', 'a', 'f', ':'] rfl rfl (by decide)

theorem depth_key_ne_workers_key (q₁ q₂ : String) :
    q₁ ++ ":depth" ≠ q₂ ++ ":workers" :=
  append_ne_of_reverse_head q₁ q₂ _ _ 'h' 's' ['t', 'p', 'e', 'd', ':']
    ['r', 'e', 'k', 'r', 'o', 'w', ':'] rfl rfl (by decide)

theorem failed_key_ne_workers_key (q₁ q₂ : String) :
    q₁ ++ ":failed" ≠ q₂ ++ ":workers" :=
  append_ne_of_reverse_head q₁ q₂ _ _ 'd' 's' ['e', 'l', 'i', 'a', 'f', ':']
    ['r', 'e', 'k', 'r', 'o', 'w', ':'] rfl rfl (by decide)

theorem depth_key_ne_celery_workers_key (q₁ : String) :
    q₁ ++ ":depth" ≠ "workers" :=
  append_ne_of_reverse_head_lit q₁ _ _ 'h' 's' ['t', 'p', 'e', 'd', ':']
    ['r', 'e', 'k', 'r', 'o', 'w'] rfl rfl (by decide)

theorem failed_key_ne_celery_workers_key (q₁ : String) :
    q₁ ++ ":failed" ≠ "workers" :=
  append_ne_of_reverse_head_lit q₁ _ _ 'd' 's' ['e', 'l', 'i', 'a', 'f', ':']
    ['r', 'e', 'k', 'r', 'o', 'w'] rfl rfl (by decide)

theorem classKey_cooldown_eq (c₁ c₂ : MetricClass) (q₁ q₂ : String)
    (h : classKey c₁ q₁ = classKey c₂ q₂) :
    classCooldown c₁ = classCooldown c₂ := by
  cases c₁ <;> cases c₂ <;>
    simp only [classKey, classCooldown] at h ⊢ <;>
    first
      | rfl
      | exact absurd h (depth_key_ne_failed_key q₁ q₂)
      | exact absurd h.symm (depth_key_ne_failed_key q₂ q₁)
      | exact absurd h (depth_key_ne_workers_key q₁ q₂)
      | exact absurd h.symm (depth_key_ne_workers_key q₂ q₁)
      | exact absurd h (failed_key_ne_workers_key q₁ q₂)
      | exact absurd h.symm (failed_key_ne_workers_key q₂ q₁)
      | exact absurd h (depth_key_ne_celery_workers_key q₁)
      | exact absurd h.symm (depth_key_ne_celery_workers_key q₂)
      | exact absurd h (failed_key_ne_celery_workers_key q₁)
      | exact absurd h.symm (failed_key_ne_celery_workers_key q₂)

theorem check_queue_depth_status (th : Nat) (wh : Option String)
    (post : WebhookResult) (q : String) (v : Nat) (now : Timestamp)
    (s : AlertState) :
    (check_queue_depth th wh post q v now s).status =
      { queue := some q, depth := some v, threshold := some th,
        status := if v < th then "ok" else "alert", timestamp := some now } := by
  simp only [check_queue_depth]
  split <;> (try split) <;> (try split) <;> rfl

theorem celery_check_queue_depth_status (th : Nat) (wh : Option String)
    (post : WebhookResult) (q : String) (v : Nat) (now : Timestamp)
    (s : AlertState) :
    (celery_check_queue_depth th wh post q v now s).status =
      { queue := some q, depth := some v, threshold := some th,
        status := if v < th then "ok" else "alert", timestamp := some now } := by
  simp only [celery_check_queue_depth]
  split <;> (try split) <;> (try split) <;> rfl

theorem check_failed_jobs_status (wh : Option String) (post : WebhookResult)
    (q : String) (v : Nat) (now : Timestamp) (s : AlertState) :
    (check_failed_jobs wh post q v now s).status =
      { queue := some q, failed_count := some v,
        status := if v = 0 then "ok" else "warning", timestamp := some now } := by
  simp only [check_failed_jobs]
  split <;> (try split) <;> (try split) <;> rfl

theorem check_workers_status (wh : Option String) (post : WebhookResult)
    (q : String) (ws : List String) (now : Timestamp) (s : AlertState) :
    (check_workers wh post q ws now s).status =
      { queue := some q,
        workers := some (ws.filter (fun w => w ≠ "stopped")).length,
        status := if (ws.filter (fun w => w ≠ "stopped")).length > 0
          then "ok" else "critical",
        timestamp := some now } := by
  simp only [check_workers]
  split <;> (try split) <;> (try split) <;> rfl

theorem celery_check_workers_status (wh : Option String)
    (post : WebhookResult) (keys : List String) (er : Option String)
    (now : Timestamp) (s : AlertState) :
    (celery_check_workers wh post keys er now s).status =
      { workers := some keys.length,
        status := if keys.length > 0 then "ok" else "critical",
        timestamp := some now } := by
  simp only [celery_check_workers]
  split <;> (try split) <;> (try split) <;> rfl

theorem check_queue_depth_state_alerts (th : Nat) (wh : Option String)
    (post : WebhookResult) (q : String) (v : Nat) (now : Timestamp)
    (s : AlertState) :
    ((check_queue_depth th wh post q v now s).alerts =
        [⟨.depth, q ++ ":depth", now⟩] ∧
      (check_queue_depth th wh post q v now s).state =
        record_alert (q ++ ":depth") now s ∧
      should_alert (q ++ ":depth") 15 now s = true ∧ th ≤ v) ∨
    ((check_queue_depth th wh post q v now s).alerts = [] ∧
      (check_queue_depth th wh post q v now s).state = s) := by
  simp only [check_queue_depth]
  by_cases hv : v < th
  · rw [if_pos hv, if_neg (by decide : ¬ (("ok" : String) = "alert"))]
    exact Or.inr ⟨rfl, rfl⟩
  · rw [if_neg hv, if_pos (rfl : ("alert" : String) = "alert")]
    by_cases hsa : should_alert (q ++ ":depth") 15 now s = true
    · rw [if_pos hsa]
      exact Or.inl ⟨rfl, rfl, hsa, Nat.le_of_not_lt hv⟩
    · rw [if_neg hsa]
      exact Or.inr ⟨rfl, rfl⟩

theorem celery_check_queue_depth_state_alerts (th : Nat) (wh : Option String)
    (post : WebhookResult) (q : String) (v : Nat) (now : Timestamp)
    (s : AlertState) :
    ((celery_check_queue_depth th wh post q v now s).alerts =
        [⟨.depth, q ++ ":depth", now⟩] ∧
      (celery_check_queue_depth th wh post q v now s).state =
        record_alert (q ++ ":depth") now s ∧
      should_alert (q ++ ":depth") 15 now s = true ∧ th ≤ v) ∨
    ((celery_check_queue_depth th wh post q v now s).alerts = [] ∧
      (celery_check_queue_depth th wh post q v now s).state = s) := by
  simp only [celery_check_queue_depth]
  by_cases hv : v < th
  · rw [if_pos hv, if_neg (by decide : ¬ (("ok" : String) = "alert"))]
    exact Or.inr ⟨rfl, rfl⟩
  · rw [if_neg hv, if_pos (rfl : ("alert" : String) = "alert")]
    by_cases hsa : should_alert (q ++ ":depth") 15 now s = true
    · rw [if_pos hsa]
      exact Or.inl ⟨rfl, rfl, hsa, Nat.le_of_not_lt hv⟩
    · rw [if_neg hsa]
      exact Or.inr ⟨rfl, rfl⟩

theorem check_failed_jobs_state_alerts (wh : Option String)
    (post : WebhookResult) (q : String) (v : Nat) (now : Timestamp)
    (s : AlertState) :
    ((check_failed_jobs wh post q v now s).alerts =
        [⟨.failed, q ++ ":failed", now⟩] ∧
      (check_failed_jobs wh post q v now s).state =
        record_alert (q ++ ":failed") now s ∧
      should_alert (q ++ ":failed") 30 now s = true ∧ 0 < v) ∨
    ((check_failed_jobs wh post q v now s).alerts = [] ∧
      (check_failed_jobs wh post q v now s).state = s) := by
  simp only [check_failed_jobs]
  by_cases hz : v = 0
  · rw [if_pos hz, if_neg (by omega : ¬ v > 0)]
    exact Or.inr ⟨rfl, rfl⟩
  · rw [if_neg hz, if_pos (Nat.pos_of_ne_zero hz)]
    by_cases hsa : should_alert (q ++ ":failed") 30 now s = true
    · rw [if_pos hsa]
      exact Or.inl ⟨rfl, rfl, hsa, Nat.pos_of_ne_zero hz⟩
    · rw [if_neg hsa]
      exact Or.inr ⟨rfl, rfl⟩

theorem check_workers_state_alerts (wh : Option String)
    (post : WebhookResult) (q : String) (ws : List String) (now : Timestamp)
    (s : AlertState) :
    ((check_workers wh post q ws now s).alerts =
        [⟨.workers, q ++ ":workers", now⟩] ∧
      (check_workers wh post q ws now s).state =
        record_alert (q ++ ":workers") now s ∧
      should_alert (q ++ ":workers") 5 now s = true ∧
      (ws.filter (fun w => w ≠ "stopped")).length = 0) ∨
    ((check_workers wh post q ws now s).alerts = [] ∧
      (check_workers wh post q ws now s).state = s) := by
  simp only [check_workers]
  by_cases hlen : (ws.filter (fun w => w ≠ "stopped")).length > 0
  · rw [if_pos hlen, if_neg (by decide : ¬ (("ok" : String) = "critical"))]
    exact Or.inr ⟨rfl, rfl⟩
  · rw [if_neg hlen, if_pos (rfl : ("critical" : String) = "critical")]
    by_cases hsa : should_alert (q ++ ":workers") 5 now s = true
    · rw [if_pos hsa]
      exact Or.inl ⟨rfl, rfl, hsa, by omega⟩
    · rw [if_neg hsa]
      exact Or.inr ⟨rfl, rfl⟩

theorem celery_check_workers_state_alerts (wh : Option String)
    (post : WebhookResult) (keys : List String) (er : Option String)
    (now : Timestamp) (s : AlertState) :
    ((celery_check_workers wh post keys er now s).alerts =
        [⟨.celWorkers, "workers", now⟩] ∧
      (celery_check_workers wh post keys er now s).state =
        record_alert "workers" now s ∧
      should_alert "workers" 5 now s = true ∧ keys.length = 0) ∨
    ((celery_check_workers wh post keys er now s).alerts = [] ∧
      (celery_check_workers wh post keys er now s).state = s) := by
  simp only [celery_check_workers]
  by_cases hlen : keys.length > 0
  · rw [if_pos hlen, if_neg (by decide : ¬ (("ok" : String) = "critical"))]
    exact Or.inr ⟨rfl, rfl⟩
  · rw [if_neg hlen, if_pos (rfl : ("critical" : String) = "critical")]
    by_cases hsa : should_alert "workers" 5 now s = true
    · rw [if_pos hsa]
      exact Or.inl ⟨rfl, rfl, hsa, by omega⟩
    · rw [if_neg hsa]
      exact Or.inr ⟨rfl, rfl⟩

theorem step_ok_char (th : Nat) (wh : Option String) (e : CheckEvent)
    (s : AlertState) (r : CheckResult) (h : step th wh e s = .ok r) :
    (r.alerts = [] ∧ r.state = s) ∨
    ∃ c q now, r.alerts = [⟨c, classKey c q, now⟩] ∧
      should_alert (classKey c q) (classCooldown c) now s = true ∧
      r.state = record_alert (classKey c q) now s := by
  cases e with
  | rqDepth q read post now =>
    cases read with
    | error msg => simp [step] at h
    | ok n =>
      simp only [step] at h
      cases h
      rcases check_queue_depth_state_alerts th wh post q n now s with
        ⟨h1, h2, h3, _⟩ | ⟨h1, h2⟩
      · exact Or.inr ⟨.depth, q, now, h1, h3, h2⟩
      · exact Or.inl ⟨h1, h2⟩
  | rqFailed q read post now =>
    cases read with
    | error msg => simp [step] at h
    | ok n =>
      simp only [step] at h
      cases h
      rcases check_failed_jobs_state_alerts wh post q n now s with
        ⟨h1, h2, h3, _⟩ | ⟨h1, h2⟩
      · exact Or.inr ⟨.failed, q, now, h1, h3, h2⟩
      · exact Or.inl ⟨h1, h2⟩
  | rqWorkers q read post now =>
    cases read with
    | error msg => simp [step] at h
    | ok ws =>
      simp only [step] at h
      cases h
      rcases check_workers_state_alerts wh post q ws now s with
        ⟨h1, h2, h3, _⟩ | ⟨h1, h2⟩
      · exact Or.inr ⟨.workers, q, now, h1, h3, h2⟩
      · exact Or.inl ⟨h1, h2⟩
  | celDepth q read post now =>
    cases read with
    | error msg => simp [step] at h
    | ok n =>
      simp only [step] at h
      cases h
      rcases celery_check_queue_depth_state_alerts th wh post q n now s with
        ⟨h1, h2, h3, _⟩ | ⟨h1, h2⟩
      · exact Or.inr ⟨.depth, q, now, h1, h3, h2⟩
      · exact Or.inl ⟨h1, h2⟩
  | celWorkers keys er post now =>
    simp only [step] at h
    cases h
    rcases celery_check_workers_state_alerts wh post keys er now s with
      ⟨h1, h2, h3, _⟩ | ⟨h1, h2⟩
    · exact Or.inr ⟨.celWorkers, "", now, h1, h3, h2⟩
    · exact Or.inl ⟨h1, h2⟩

theorem Inv_step (th : Nat) (wh : Option String) (e : CheckEvent)
    (s : AlertState) (r : CheckResult) (l : List Alert)
    (hInv : Inv s l) (h : step th wh e s = .ok r) :
    Inv r.state (l ++ r.alerts) := by
  obtain ⟨hp, hk, hb⟩ := hInv
  rcases step_ok_char th wh e s r h with ⟨ha, hs⟩ | ⟨c, q, now, ha, hg, hs⟩
  · rw [ha, hs, List.append_nil]
    exact ⟨hp, hk, hb⟩
  · have hcd0 : (0 : Int) ≤ classCooldown c := by cases c <;> decide
    rw [ha, hs]
    refine ⟨?_, ?_, ?_⟩
    · rw [List.pairwise_append]
      refine ⟨hp, List.pairwise_singleton _ _, ?_⟩
      intro a hal b hbl
      have hbeq : b = ⟨c, classKey c q, now⟩ := by simpa using hbl
      subst hbeq
      unfold cdR
      intro hkey
      dsimp only at hkey ⊢
      obtain ⟨t, hst, hle⟩ := hb a hal
      rw [hkey] at hst
      unfold should_alert at hg
      rw [hst] at hg
      have hgt : now - t > classCooldown c := of_decide_eq_true hg
      obtain ⟨q', hq'⟩ := hk a hal
      have hcd : classCooldown a.cls = classCooldown c :=
        classKey_cooldown_eq a.cls c q' q (hq'.symm.trans hkey)
      rw [hcd]
      linarith
    · intro a hal
      rcases List.mem_append.mp hal with h1 | h1
      · exact hk a h1
      · have haeq : a = ⟨c, classKey c q, now⟩ := by simpa using h1
        subst haeq
        exact ⟨q, rfl⟩
    · intro a hal
      rcases List.mem_append.mp hal with h1 | h1
      · obtain ⟨t, hst, hle⟩ := hb a h1
        by_cases hkey : a.key = classKey c q
        · refine ⟨now, by simp [record_alert, hkey], ?_⟩
          have hst2 := hst
          rw [hkey] at hst2
          unfold should_alert at hg
          rw [hst2] at hg
          have hgt : now - t > classCooldown c := of_decide_eq_true hg
          linarith
        · exact ⟨t, by simp [record_alert, hkey, hst], hle⟩
      · have haeq : a = ⟨c, classKey c q, now⟩ := by simpa using h1
        subst haeq
        exact ⟨now, by simp [record_alert], le_refl now⟩

theorem runTrace_inv (th : Nat) (wh : Option String)
    (events : List CheckEvent) :
    ∀ s l, Inv s l →
      Inv (runTrace th wh events s).state
        (l ++ (runTrace th wh events s).alerts) := by
  induction events with
  | nil =>
    intro s l h
    simpa [runTrace] using h
  | cons e rest ih =>
    intro s l h
    cases hstep : step th wh e s with
    | error msg =>
      simp only [runTrace, hstep]
      simpa using h
    | ok r =>
      have h1 := Inv_step th wh e s r l h hstep
      have h2 := ih r.state (l ++ r.alerts) h1
      simp only [runTrace, hstep]
      simpa [List.append_assoc] using h2

theorem status_tag_alert_iff (v th : Nat) :
    ((if v < th then "ok" else "alert") = ("alert" : String) ↔ th ≤ v) := by
  by_cases hv : v < th
  · rw [if_pos hv]
    constructor
    · intro h
      exact absurd h (by decide)
    · intro h
      exact absurd hv (Nat.not_lt.mpr h)
  · rw [if_neg hv]
    exact ⟨fun _ => Nat.le_of_not_lt hv, fun _ => rfl⟩

theorem status_tag_ok_iff (v th : Nat) :
    ((if v < th then "ok" else "alert") = ("ok" : String) ↔ v < th) := by
  by_cases hv : v < th
  · rw [if_pos hv]
    exact ⟨fun _ => hv, fun _ => rfl⟩
  · rw [if_neg hv]
    constructor
    · intro h
      exact absurd h (by decide)
    · intro h
      exact absurd h hv

/-- C1: for every monitored value `v` and threshold `T`, both monitors'
`check_queue_depth` classify the metric as `"alert"` iff `v ≥ T` and as
`"ok"` iff `v < T`; in particular `v = T` is classified `"alert"`. -/
theorem C1_depth_threshold_boundary (th : Nat) (wh : Option String)
    (post : WebhookResult) (q : String) (v : Nat) (now : Timestamp)
    (s : AlertState) :
    ((check_queue_depth th wh post q v now s).status.status = "alert" ↔ th ≤ v)
    ∧ ((check_queue_depth th wh post q v now s).status.status = "ok" ↔ v < th)
    ∧ ((celery_check_queue_depth th wh post q v now s).status.status = "alert"
        ↔ th ≤ v)
    ∧ ((celery_check_queue_depth th wh post q v now s).status.status = "ok"
        ↔ v < th)
    ∧ (check_queue_depth th wh post q th now s).status.status = "alert" := by
  rw [check_queue_depth_status, celery_check_queue_depth_status,
    check_queue_depth_status]
  dsimp only
  refine ⟨status_tag_alert_iff v th, status_tag_ok_iff v th,
    status_tag_alert_iff v th, status_tag_ok_iff v th, ?_⟩
  exact (status_tag_alert_iff th th).mpr (le_refl th)

/-- C7: `check_failed_jobs` classifies a failed-job count of 0 as `"ok"`
and every nonzero count as `"warning"`. -/
theorem C7_failed_jobs_classification (wh : Option String)
    (post : WebhookResult) (q : String) (v : Nat) (now : Timestamp)
    (s : AlertState) :
    ((check_failed_jobs wh post q v now s).status.status = "ok" ↔ v = 0)
    ∧ ((check_failed_jobs wh post q v now s).status.status = "warning"
        ↔ v ≠ 0) := by
  rw [check_failed_jobs_status]
  dsimp only
  by_cases hz : v = 0
  · rw [if_pos hz]
    exact ⟨⟨fun _ => hz, fun _ => rfl⟩,
      ⟨fun h => absurd h (by decide), fun h => absurd hz h⟩⟩
  · rw [if_neg hz]
    exact ⟨⟨fun h => absurd h (by decide), fun h => absurd h hz⟩,
      ⟨fun _ => hz, fun _ => rfl⟩⟩

/-- C9: the status dictionary each RQ check returns is independent of the
`last_alert` state: the same backend reading against two arbitrary alert
states yields equal status dicts (status tag, depth and counts included) —
the cooldown only suppresses dispatch. -/
theorem C9_status_independent_of_alert_state (th : Nat) (wh : Option String)
    (post : WebhookResult) (q : String) (v : Nat) (ws : List String)
    (now : Timestamp) (s₁ s₂ : AlertState) :
    (check_queue_depth th wh post q v now s₁).status =
      (check_queue_depth th wh post q v now s₂).status
    ∧ (check_failed_jobs wh post q v now s₁).status =
      (check_failed_jobs wh post q v now s₂).status
    ∧ (check_workers wh post q ws now s₁).status =
      (check_workers wh post q ws now s₂).status := by
  refine ⟨?_, ?_, ?_⟩
  · rw [check_queue_depth_status, check_queue_depth_status]
  · rw [check_failed_jobs_status, check_failed_jobs_status]
  · rw [check_workers_status, check_workers_status]

/-- C2: in any run of the monitor loop from the fresh (empty) `last_alert`
dictionary, no two alerts for the same metric key are dispatched within
that key's cooldown window: a later alert for the same key fires strictly
more than the earlier alert's class cooldown after it (`classCooldown`:
15 minutes for depth, 30 for failed jobs, 5 for workers). -/
theorem C2_no_two_alerts_within_cooldown (th : Nat) (wh : Option String)
    (events : List CheckEvent) (i j : Nat) (a b : Alert) (hij : i < j)
    (ha : (runTrace th wh events emptyState).alerts[i]? = some a)
    (hb : (runTrace th wh events emptyState).alerts[j]? = some b)
    (hkey : a.key = b.key) :
    b.time - a.time > classCooldown a.cls := by
  have hInv := runTrace_inv th wh events emptyState []
    ⟨List.Pairwise.nil, fun a ha => absurd ha (List.not_mem_nil a),
      fun a ha => absurd ha (List.not_mem_nil a)⟩
  have hp : (runTrace th wh events emptyState).alerts.Pairwise cdR := by
    have := hInv.1
    rwa [List.nil_append] at this
  obtain ⟨hi, hia⟩ := List.getElem?_eq_some.mp ha
  obtain ⟨hj, hjb⟩ := List.getElem?_eq_some.mp hb
  have hR := List.pairwise_iff_getElem.mp hp i j hi hj hij
  rw [hia, hjb] at hR
  unfold cdR at hR
  exact hR hkey

theorem C2_no_two_alerts_within_cooldown_witness :
    ((⟨.depth, "default:depth", 16⟩ : Alert).time -
      (⟨.depth, "default:depth", 0⟩ : Alert).time >
      classCooldown (⟨.depth, "default:depth", 0⟩ : Alert).cls) :=
  C2_no_two_alerts_within_cooldown 500 none
    [.rqDepth "default" (.ok 600) .success 0,
      .rqDepth "default" (.ok 600) .success 16] 0 1
    ⟨.depth, "default:depth", 0⟩ ⟨.depth, "default:depth", 16⟩
    (by decide) (by decide) (by decide) rfl

/-- C8: after recording an alert for key `k` at time `t`, the cooldown
guard for `k` at time `t` answers false; at every time strictly later than
`t + C` it answers true again; and with no recorded alert for `k` it
answers true. -/
theorem C8_record_then_should_alert (k : String) (C : Int)
    (t tP : Timestamp) (s sP : AlertState) (hC : 0 ≤ C) :
    should_alert k C t (record_alert k t s) = false
    ∧ (t + C < tP → should_alert k C tP (record_alert k t s) = true)
    ∧ (sP k = none → should_alert k C t sP = true) := by
  refine ⟨?_, ?_, ?_⟩
  · simp only [should_alert, record_alert, if_pos rfl]
    refine decide_eq_false (fun hcon => ?_)
    linarith
  · intro h
    simp only [should_alert, record_alert, if_pos rfl]
    exact decide_eq_true (by linarith)
  · intro h
    simp only [should_alert, h]

theorem C8_record_then_should_alert_witness :
    should_alert "default:depth" 15 0
        (record_alert "default:depth" 0 emptyState) = false
    ∧ should_alert "default:depth" 15 16
        (record_alert "default:depth" 0 emptyState) = true
    ∧ should_alert "default:depth" 15 0 emptyState = true :=
  ⟨(C8_record_then_should_alert "default:depth" 15 0 16 emptyState emptyState
      (by decide)).1,
    (C8_record_then_should_alert "default:depth" 15 0 16 emptyState emptyState
      (by decide)).2.1 (by decide),
    (C8_record_then_should_alert "default:depth" 15 0 16 emptyState emptyState
      (by decide)).2.2 rfl⟩

theorem head_append_of_head (s r : String) (c : Char)
    (h : s.data.head? = some c) : (s ++ r).data.head? = some c := by
  rw [String.data_append]
  cases hs : s.data with
  | nil => rw [hs] at h; exact absurd h (by simp)
  | cons x tl =>
    rw [hs] at h
    simp only [List.cons_append, List.head?_cons]
    simpa using h

theorem worker_msg_head (wh : Option String) (post : WebhookResult)
    (q : String) (ws : List String) (now : Timestamp) (s : AlertState) :
    (format_alert ((check_workers wh post q ws now s).status)).data.head? =
      some '🔴' := by
  rw [check_workers_status]
  show ((("🔴 Queue \x27" ++ q) ++ "\x27 has no active workers!")).data.head? =
    some '🔴'
  exact head_append_of_head _ _ _ (head_append_of_head _ _ _ rfl)

theorem depth_msg_head (th : Nat) (wh : Option String) (post : WebhookResult)
    (q : String) (v : Nat) (now : Timestamp) (s : AlertState) :
    (format_alert ((check_queue_depth th wh post q v now s).status)).data.head? =
      some '🚨' := by
  rw [check_queue_depth_status]
  show ((((("🚨 Queue \x27" ++ q) ++ "\x27 depth: ") ++ toString v) ++
      " (threshold: " ++ toString th) ++ ")").data.head? = some '🚨'
  exact head_append_of_head _ _ _ (head_append_of_head _ _ _
    (head_append_of_head _ _ _ (head_append_of_head _ _ _
      (head_append_of_head _ _ _ rfl))))

theorem celery_worker_msg_head (wh : Option String) (post : WebhookResult)
    (keys : List String) (er : Option String) (now : Timestamp)
    (s : AlertState) :
    (celery_format_alert
      ((celery_check_workers wh post keys er now s).status)).data.head? =
      some '🔴' := by
  rw [celery_check_workers_status]
  rfl

theorem celery_depth_msg_head (th : Nat) (wh : Option String)
    (post : WebhookResult) (q : String) (v : Nat) (now : Timestamp)
    (s : AlertState) :
    (celery_format_alert
      ((celery_check_queue_depth th wh post q v now s).status)).data.head? =
      some '🚨' := by
  rw [celery_check_queue_depth_status]
  show ((((("🚨 Queue \x27" ++ q) ++ "\x27 depth: ") ++ toString v) ++
      " (threshold: " ++ toString th) ++ ")").data.head? = some '🚨'
  exact head_append_of_head _ _ _ (head_append_of_head _ _ _
    (head_append_of_head _ _ _ (head_append_of_head _ _ _
      (head_append_of_head _ _ _ rfl))))

/-- C6: a live-worker count of 0 yields status `"critical"` and any
positive count `"ok"` (both monitors); the worker alert message template
(first character `'🔴'`) is distinct from the depth alert template
(`'🚨'`); the worker cooldown key is separate from the depth key of the
same queue — neither worker check touches `q ++ ":depth"`, the worker
dispatch decision depends only on the worker key, and with a recorded
worker alert at `t` the re-alert fires iff more than 5 minutes elapsed. -/
theorem C6_worker_check (wh : Option String) (post : WebhookResult)
    (q qd : String) (wsAny ws keys : List String) (er : Option String)
    (th v : Nat) (now nowd : Timestamp) (s sAny s₁ s₂ sB : AlertState)
    (t : Timestamp)
    (hkeyeq : s₁ (q ++ ":workers") = s₂ (q ++ ":workers"))
    (ht : s (q ++ ":workers") = some t)
    (halive : (ws.filter (fun w => w ≠ "stopped")).length = 0) :
    ((check_workers wh post q wsAny now sAny).status.status =
      if (wsAny.filter (fun w => w ≠ "stopped")).length = 0
        then "critical" else "ok")
    ∧ ((celery_check_workers wh post keys er now sAny).status.status =
      if keys.length = 0 then "critical" else "ok")
    ∧ format_alert ((check_workers wh post q wsAny now sAny).status) ≠
      format_alert ((check_queue_depth th wh post qd v nowd sB).status)
    ∧ celery_format_alert
        ((celery_check_workers wh post keys er now sAny).status) ≠
      celery_format_alert
        ((celery_check_queue_depth th wh post qd v nowd sB).status)
    ∧ (check_workers wh post q wsAny now s).state (q ++ ":depth") =
      s (q ++ ":depth")
    ∧ (celery_check_workers wh post keys er now s).state (q ++ ":depth") =
      s (q ++ ":depth")
    ∧ (check_workers wh post q wsAny now s₁).alerts =
      (check_workers wh post q wsAny now s₂).alerts
    ∧ ((check_workers wh post q ws now s).alerts ≠ [] ↔ now - t > 5) := by
  refine ⟨?_, ?_, ?_, ?_, ?_, ?_, ?_, ?_⟩
  · rw [check_workers_status]
    dsimp only
    by_cases hz : (wsAny.filter (fun w => w ≠ "stopped")).length = 0
    · rw [if_pos hz, if_neg (by omega : ¬ (wsAny.filter
        (fun w => w ≠ "stopped")).length > 0)]
    · rw [if_neg hz, if_pos (Nat.pos_of_ne_zero hz)]
  · rw [celery_check_workers_status]
    dsimp only
    by_cases hz : keys.length = 0
    · rw [if_pos hz, if_neg (by omega : ¬ keys.length > 0)]
    · rw [if_neg hz, if_pos (Nat.pos_of_ne_zero hz)]
  · intro h
    have h1 := worker_msg_head wh post q wsAny now sAny
    rw [h, depth_msg_head] at h1
    exact absurd (Option.some.inj h1) (by decide)
  · intro h
    have h1 := celery_worker_msg_head wh post keys er now sAny
    rw [h, celery_depth_msg_head] at h1
    exact absurd (Option.some.inj h1) (by decide)
  · rcases check_workers_state_alerts wh post q wsAny now s with
      ⟨_, h2, _, _⟩ | ⟨_, h2⟩
    · rw [h2]
      simp only [record_alert]
      rw [if_neg (depth_key_ne_workers_key q q)]
    · rw [h2]
  · rcases celery_check_workers_state_alerts wh post keys er now s with
      ⟨_, h2, _, _⟩ | ⟨_, h2⟩
    · rw [h2]
      simp only [record_alert]
      rw [if_neg (depth_key_ne_celery_workers_key q)]
    · rw [h2]
  · have hsa : should_alert (q ++ ":workers") 5 now s₁ =
        should_alert (q ++ ":workers") 5 now s₂ := by
      unfold should_alert
      rw [hkeyeq]
    simp only [check_workers]
    rw [hsa]
    split <;> (try split) <;> (try split) <;> rfl
  · simp only [check_workers]
    rw [if_neg (by omega : ¬ (ws.filter (fun w => w ≠ "stopped")).length > 0),
      if_pos (rfl : ("critical" : String) = "critical")]
    unfold should_alert
    rw [ht]
    by_cases hgt : now - t > 5
    · rw [if_pos (by exact decide_eq_true hgt)]
      simp only [ne_eq]
      constructor
      · intro _
        exact hgt
      · intro _
        simp
    · rw [if_neg (by simp [hgt])]
      constructor
      · intro hcon
        exact absurd rfl hcon
      · intro hcon
        exact absurd hcon hgt

theorem C6_worker_check_witness :
    ((check_workers none .success "default" ["stopped"] 6
        emptyState).status.status =
      if ((["stopped"] : List String).filter
        (fun w => w ≠ "stopped")).length = 0 then "critical" else "ok")
    ∧ ((celery_check_workers none .success [] none 6
        emptyState).status.status =
      if ([] : List String).length = 0 then "critical" else "ok")
    ∧ format_alert ((check_workers none .success "default" ["stopped"] 6
        emptyState).status) ≠
      format_alert ((check_queue_depth 500 none .success "default" 600 0
        emptyState).status)
    ∧ celery_format_alert ((celery_check_workers none .success [] none 6
        emptyState).status) ≠
      celery_format_alert ((celery_check_queue_depth 500 none .success
        "default" 600 0 emptyState).status)
    ∧ (check_workers none .success "default" ["stopped"] 6
        (record_alert "default:workers" 0 emptyState)).state
        ("default" ++ ":depth") =
      record_alert "default:workers" 0 emptyState ("default" ++ ":depth")
    ∧ (celery_check_workers none .success [] none 6
        (record_alert "default:workers" 0 emptyState)).state
        ("default" ++ ":depth") =
      record_alert "default:workers" 0 emptyState ("default" ++ ":depth")
    ∧ (check_workers none .success "default" ["stopped"] 6
        emptyState).alerts =
      (check_workers none .success "default" ["stopped"] 6
        emptyState).alerts
    ∧ ((check_workers none .success "default" [] 6
        (record_alert "default:workers" 0 emptyState)).alerts ≠ [] ↔
      (6 : Int) - 0 > 5) :=
  C6_worker_check none .success "default" "default" ["stopped"] [] [] none
    500 600 6 0 (record_alert "default:workers" 0 emptyState) emptyState
    emptyState emptyState emptyState 0 rfl (by decide) (by decide)

theorem record_alert_ne (key k : String) (now : Timestamp) (s : AlertState)
    (h : k ≠ key) : record_alert key now s k = s k := by
  simp [record_alert, h]

theorem record_alert_keeps (key kp : String) (now t : Timestamp)
    (s : AlertState) (hs : s kp = some t) :
    ∃ tp, record_alert key now s kp = some tp := by
  by_cases h : kp = key
  · exact ⟨now, by simp [record_alert, h]⟩
  · exact ⟨t, by simp [record_alert, h, hs]⟩

/-- C10: each check writes at most its own alert-state key: any key
different from that check's own key — `q ++ ":depth"` for the depth
checks, `q ++ ":failed"` for the failed-jobs check, `q ++ ":workers"` for
the RQ worker check, `"workers"` for the Celery worker check — is left
with exactly its previous value (in particular, each check leaves the
sibling keys of the same queue untouched); and no check ever deletes an
entry: a key that held a timestamp before still holds one after. -/
theorem C10_alert_state_frame (th : Nat) (wh : Option String)
    (post : WebhookResult) (q : String) (v f : Nat) (ws keys : List String)
    (er : Option String) (now : Timestamp) (s : AlertState)
    (k₁ k₂ k₃ k₄ kp : String) (t : Timestamp)
    (hk₁ : k₁ ≠ q ++ ":depth") (hk₂ : k₂ ≠ q ++ ":failed")
    (hk₃ : k₃ ≠ q ++ ":workers") (hk₄ : k₄ ≠ "workers")
    (hs : s kp = some t) :
    (check_queue_depth th wh post q v now s).state k₁ = s k₁
    ∧ (check_failed_jobs wh post q f now s).state k₂ = s k₂
    ∧ (check_workers wh post q ws now s).state k₃ = s k₃
    ∧ (celery_check_queue_depth th wh post q v now s).state k₁ = s k₁
    ∧ (celery_check_workers wh post keys er now s).state k₄ = s k₄
    ∧ (∃ tp, (check_queue_depth th wh post q v now s).state kp = some tp)
    ∧ (∃ tp, (check_failed_jobs wh post q f now s).state kp = some tp)
    ∧ (∃ tp, (check_workers wh post q ws now s).state kp = some tp)
    ∧ (∃ tp, (celery_check_queue_depth th wh post q v now s).state kp =
        some tp)
    ∧ (∃ tp, (celery_check_workers wh post keys er now s).state kp =
        some tp) := by
  refine ⟨?_, ?_, ?_, ?_, ?_, ?_, ?_, ?_, ?_, ?_⟩
  · rcases check_queue_depth_state_alerts th wh post q v now s with
      ⟨_, h2, _, _⟩ | ⟨_, h2⟩
    · rw [h2]
      exact record_alert_ne _ _ _ _ hk₁
    · rw [h2]
  · rcases check_failed_jobs_state_alerts wh post q f now s with
      ⟨_, h2, _, _⟩ | ⟨_, h2⟩
    · rw [h2]
      exact record_alert_ne _ _ _ _ hk₂
    · rw [h2]
  · rcases check_workers_state_alerts wh post q ws now s with
      ⟨_, h2, _, _⟩ | ⟨_, h2⟩
    · rw [h2]
      exact record_alert_ne _ _ _ _ hk₃
    · rw [h2]
  · rcases celery_check_queue_depth_state_alerts th wh post q v now s with
      ⟨_, h2, _, _⟩ | ⟨_, h2⟩
    · rw [h2]
      exact record_alert_ne _ _ _ _ hk₁
    · rw [h2]
  · rcases celery_check_workers_state_alerts wh post keys er now s with
      ⟨_, h2, _, _⟩ | ⟨_, h2⟩
    · rw [h2]
      exact record_alert_ne _ _ _ _ hk₄
    · rw [h2]
  · rcases check_queue_depth_state_alerts th wh post q v now s with
      ⟨_, h2, _, _⟩ | ⟨_, h2⟩
    · rw [h2]
      exact record_alert_keeps _ _ _ _ _ hs
    · rw [h2]
      exact ⟨t, hs⟩
  · rcases check_failed_jobs_state_alerts wh post q f now s with
      ⟨_, h2, _, _⟩ | ⟨_, h2⟩
    · rw [h2]
      exact record_alert_keeps _ _ _ _ _ hs
    · rw [h2]
      exact ⟨t, hs⟩
  · rcases check_workers_state_alerts wh post q ws now s with
      ⟨_, h2, _, _⟩ | ⟨_, h2⟩
    · rw [h2]
      exact record_alert_keeps _ _ _ _ _ hs
    · rw [h2]
      exact ⟨t, hs⟩
  · rcases celery_check_queue_depth_state_alerts th wh post q v now s with
      ⟨_, h2, _, _⟩ | ⟨_, h2⟩
    · rw [h2]
      exact record_alert_keeps _ _ _ _ _ hs
    · rw [h2]
      exact ⟨t, hs⟩
  · rcases celery_check_workers_state_alerts wh post keys er now s with
      ⟨_, h2, _, _⟩ | ⟨_, h2⟩
    · rw [h2]
      exact record_alert_keeps _ _ _ _ _ hs
    · rw [h2]
      exact ⟨t, hs⟩

theorem C10_alert_state_frame_witness :
    (check_queue_depth 500 none .success "default" 600 0
        (record_alert "prev" 3 emptyState)).state "default:failed" =
      record_alert "prev" 3 emptyState "default:failed"
    ∧ (check_failed_jobs none .success "default" 5 0
        (record_alert "prev" 3 emptyState)).state "default:workers" =
      record_alert "prev" 3 emptyState "default:workers"
    ∧ (check_workers none .success "default" [] 0
        (record_alert "prev" 3 emptyState)).state "default:depth" =
      record_alert "prev" 3 emptyState "default:depth"
    ∧ (celery_check_queue_depth 500 none .success "default" 600 0
        (record_alert "prev" 3 emptyState)).state "default:failed" =
      record_alert "prev" 3 emptyState "default:failed"
    ∧ (celery_check_workers none .success [] none 0
        (record_alert "prev" 3 emptyState)).state "default:depth" =
      record_alert "prev" 3 emptyState "default:depth"
    ∧ (∃ tp, (check_queue_depth 500 none .success "default" 600 0
        (record_alert "prev" 3 emptyState)).state "prev" = some tp)
    ∧ (∃ tp, (check_failed_jobs none .success "default" 5 0
        (record_alert "prev" 3 emptyState)).state "prev" = some tp)
    ∧ (∃ tp, (check_workers none .success "default" [] 0
        (record_alert "prev" 3 emptyState)).state "prev" = some tp)
    ∧ (∃ tp, (celery_check_queue_depth 500 none .success "default" 600 0
        (record_alert "prev" 3 emptyState)).state "prev" = some tp)
    ∧ (∃ tp, (celery_check_workers none .success [] none 0
        (record_alert "prev" 3 emptyState)).state "prev" = some tp) :=
  C10_alert_state_frame 500 none .success "default" 600 5 [] [] none 0
    (record_alert "prev" 3 emptyState) "default:failed" "default:workers"
    "default:depth" "default:depth" "prev" 3
    (by decide) (by decide) (by decide) (by decide) (by decide)

/-- C5 (counterexample): a non-success webhook response (here HTTP 500) is
a delivery failure the claim covers, yet the source discards the
`requests.post` return value without `raise_for_status`, so nothing is
logged beyond the `[ALERT]` console line and no error is reported
anywhere — refuting "for every dispatch whose webhook delivery fails
(network error or non-success response), the failure is logged, dispatch
reports an error". -/
theorem C5_nonsuccess_response_unreported :
    (check_queue_depth 500 (some "http://hook") (.httpError 500) "default"
        600 0 emptyState).logs =
      ["[ALERT] 🚨 Queue \x27default\x27 depth: 600 (threshold: 500)"]
    ∧ (runTrace 500 (some "http://hook")
        [.rqDepth "default" (.ok 600) (.httpError 500) 0]
        emptyState).err = none := by
  exact ⟨by decide, rfl⟩

/-- C5 (amended): only a webhook POST that raises a network error
(`requests.RequestException`) is handled as a failure: it is caught,
logged with an `[ERROR]` report line, and never propagated.  A non-success
HTTP response is not detected at all: the response is discarded without a
status check, `send_alert` logs and reports exactly what it does on
success.  In both cases the monitor loop continues to the remaining
checks with no uncaught error. -/
theorem C5_dispatch_failure_never_propagates (wh e : String) (msg : String)
    (code th : Nat) (q : String) (v : Nat) (now : Timestamp)
    (s : AlertState) (rest : List CheckEvent) (hth : th ≤ v)
    (hs : s (q ++ ":depth") = none) :
    send_alert (some wh) (.requestException e) msg =
      ["[ALERT] " ++ msg, "[ERROR] Failed to send alert: " ++ e]
    ∧ ("[ERROR] Failed to send alert: " ++ e) ∈
      (check_queue_depth th (some wh) (.requestException e) q v now s).logs
    ∧ send_alert (some wh) (.httpError code) msg = ["[ALERT] " ++ msg]
    ∧ (check_queue_depth th (some wh) (.httpError code) q v now s).logs =
      (check_queue_depth th (some wh) .success q v now s).logs
    ∧ (runTrace th (some wh)
        (CheckEvent.rqDepth q (.ok v) (.requestException e) now :: rest)
        s).statuses =
      (check_queue_depth th (some wh) (.requestException e) q v now s).status
        :: (runTrace th (some wh) rest
          (check_queue_depth th (some wh) (.requestException e) q v now
            s).state).statuses
    ∧ (runTrace th (some wh)
        (CheckEvent.rqDepth q (.ok v) (.requestException e) now :: rest)
        s).err =
      (runTrace th (some wh) rest
        (check_queue_depth th (some wh) (.requestException e) q v now
          s).state).err
    ∧ (runTrace th (some wh)
        (CheckEvent.rqDepth q (.ok v) (.httpError code) now :: rest)
        s).statuses =
      (check_queue_depth th (some wh) (.httpError code) q v now s).status
        :: (runTrace th (some wh) rest
          (check_queue_depth th (some wh) (.httpError code) q v now
            s).state).statuses
    ∧ (runTrace th (some wh)
        (CheckEvent.rqDepth q (.ok v) (.httpError code) now :: rest)
        s).err =
      (runTrace th (some wh) rest
        (check_queue_depth th (some wh) (.httpError code) q v now
          s).state).err := by
  refine ⟨rfl, ?_, rfl, ?_, rfl, rfl, rfl, rfl⟩
  · simp only [check_queue_depth]
    rw [if_neg (Nat.not_lt.mpr hth),
      if_pos (rfl : ("alert" : String) = "alert")]
    have hsa : should_alert (q ++ ":depth") 15 now s = true := by
      simp [should_alert, hs]
    rw [if_pos hsa]
    simp [send_alert]
  · simp only [check_queue_depth]
    split <;> (try split) <;> (try split) <;> rfl

theorem C5_dispatch_failure_never_propagates_witness :
    send_alert (some "http://hook") (.requestException "timeout") "m" =
      ["[ALERT] m", "[ERROR] Failed to send alert: timeout"]
    ∧ ("[ERROR] Failed to send alert: " ++ "timeout") ∈
      (check_queue_depth 500 (some "http://hook")
        (.requestException "timeout") "default" 600 0 emptyState).logs
    ∧ send_alert (some "http://hook") (.httpError 503) "m" = ["[ALERT] m"]
    ∧ (check_queue_depth 500 (some "http://hook") (.httpError 503)
        "default" 600 0 emptyState).logs =
      (check_queue_depth 500 (some "http://hook") .success
        "default" 600 0 emptyState).logs
    ∧ (runTrace 500 (some "http://hook")
        (CheckEvent.rqDepth "default" (.ok 600)
          (.requestException "timeout") 0 :: []) emptyState).statuses =
      (check_queue_depth 500 (some "http://hook")
        (.requestException "timeout") "default" 600 0 emptyState).status
        :: (runTrace 500 (some "http://hook") []
          (check_queue_depth 500 (some "http://hook")
            (.requestException "timeout") "default" 600 0
            emptyState).state).statuses
    ∧ (runTrace 500 (some "http://hook")
        (CheckEvent.rqDepth "default" (.ok 600)
          (.requestException "timeout") 0 :: []) emptyState).err =
      (runTrace 500 (some "http://hook") []
        (check_queue_depth 500 (some "http://hook")
          (.requestException "timeout") "default" 600 0
          emptyState).state).err
    ∧ (runTrace 500 (some "http://hook")
        (CheckEvent.rqDepth "default" (.ok 600) (.httpError 503) 0 :: [])
        emptyState).statuses =
      (check_queue_depth 500 (some "http://hook") (.httpError 503)
        "default" 600 0 emptyState).status
        :: (runTrace 500 (some "http://hook") []
          (check_queue_depth 500 (some "http://hook") (.httpError 503)
            "default" 600 0 emptyState).state).statuses
    ∧ (runTrace 500 (some "http://hook")
        (CheckEvent.rqDepth "default" (.ok 600) (.httpError 503) 0 :: [])
        emptyState).err =
      (runTrace 500 (some "http://hook") []
        (check_queue_depth 500 (some "http://hook") (.httpError 503)
          "default" 600 0 emptyState).state).err := by
  have h := C5_dispatch_failure_never_propagates "http://hook" "timeout"
    "m" 503 500 "default" 600 0 emptyState [] (by decide) rfl
  exact h

/-- C3 (counterexample): with a configured webhook whose POST raises, the
depth check still stamps `last_alert["default:depth"]` — the state is
mutated although the webhook delivery failed (the `[ERROR]` line in the
logs records the failed delivery), refuting "the state is left unchanged
when dispatch fails". -/
theorem C3_state_written_despite_failed_dispatch :
    ("[ERROR] Failed to send alert: timeout" ∈
      (check_queue_depth 500 (some "http://hook")
        (.requestException "timeout") "default" 600 0 emptyState).logs)
    ∧ emptyState "default:depth" = none
    ∧ (check_queue_depth 500 (some "http://hook")
        (.requestException "timeout") "default" 600 0
        emptyState).state "default:depth" = some 0 := by
  refine ⟨?_, rfl, ?_⟩ <;> decide

/-- C3 (amended): the `last_alert` entry for a check's key is created or
overwritten exactly when that check invoked `send_alert` (status
alert-worthy and cooldown passed) in that call, and otherwise the state is
unchanged; the webhook delivery outcome never affects the state, because
`send_alert` swallows delivery failures. -/
theorem C3_state_update_tracks_dispatch (th : Nat) (wh : Option String)
    (post post₂ : WebhookResult) (q : String) (v f : Nat)
    (ws keys : List String) (er : Option String) (now : Timestamp)
    (s : AlertState) :
    (check_queue_depth th wh post q v now s).state =
      (check_queue_depth th wh post₂ q v now s).state
    ∧ (check_failed_jobs wh post q f now s).state =
      (check_failed_jobs wh post₂ q f now s).state
    ∧ (check_workers wh post q ws now s).state =
      (check_workers wh post₂ q ws now s).state
    ∧ (celery_check_queue_depth th wh post q v now s).state =
      (celery_check_queue_depth th wh post₂ q v now s).state
    ∧ (celery_check_workers wh post keys er now s).state =
      (celery_check_workers wh post₂ keys er now s).state
    ∧ (check_queue_depth th wh post q v now s).state =
      (if (check_queue_depth th wh post q v now s).alerts.isEmpty then s
        else record_alert (q ++ ":depth") now s)
    ∧ (check_failed_jobs wh post q f now s).state =
      (if (check_failed_jobs wh post q f now s).alerts.isEmpty then s
        else record_alert (q ++ ":failed") now s)
    ∧ (check_workers wh post q ws now s).state =
      (if (check_workers wh post q ws now s).alerts.isEmpty then s
        else record_alert (q ++ ":workers") now s)
    ∧ (celery_check_queue_depth th wh post q v now s).state =
      (if (celery_check_queue_depth th wh post q v now s).alerts.isEmpty
        then s else record_alert (q ++ ":depth") now s)
    ∧ (celery_check_workers wh post keys er now s).state =
      (if (celery_check_workers wh post keys er now s).alerts.isEmpty
        then s else record_alert "workers" now s) := by
  refine ⟨?_, ?_, ?_, ?_, ?_, ?_, ?_, ?_, ?_, ?_⟩
  · simp only [check_queue_depth]
    split <;> (try split) <;> (try split) <;> rfl
  · simp only [check_failed_jobs]
    split <;> (try split) <;> (try split) <;> rfl
  · simp only [check_workers]
    split <;> (try split) <;> (try split) <;> rfl
  · simp only [celery_check_queue_depth]
    split <;> (try split) <;> (try split) <;> rfl
  · simp only [celery_check_workers]
    split <;> (try split) <;> (try split) <;> rfl
  · rcases check_queue_depth_state_alerts th wh post q v now s with
      ⟨h1, h2, _, _⟩ | ⟨h1, h2⟩ <;> rw [h1, h2] <;> rfl
  · rcases check_failed_jobs_state_alerts wh post q f now s with
      ⟨h1, h2, _, _⟩ | ⟨h1, h2⟩ <;> rw [h1, h2] <;> rfl
  · rcases check_workers_state_alerts wh post q ws now s with
      ⟨h1, h2, _, _⟩ | ⟨h1, h2⟩ <;> rw [h1, h2] <;> rfl
  · rcases celery_check_queue_depth_state_alerts th wh post q v now s with
      ⟨h1, h2, _, _⟩ | ⟨h1, h2⟩ <;> rw [h1, h2] <;> rfl
  · rcases celery_check_workers_state_alerts wh post keys er now s with
      ⟨h1, h2, _, _⟩ | ⟨h1, h2⟩ <;> rw [h1, h2] <;> rfl

/-- C4 (counterexample): a cycle whose first metric read raises
(`llen` fails with `ConnectionError`) aborts uncaught: the following
failed-jobs metric of the same cycle (count 5, which would have been
evaluated to `"warning"`) is never evaluated — no statuses are produced
and the error escapes the loop, refuting "that error is caught ... and the
remaining metrics of the cycle are still evaluated". -/
theorem C4_read_error_aborts_cycle :
    (runTrace 500 none
      [.rqDepth "default" (.error "ConnectionError") .success 0,
        .rqFailed "default" (.ok 5) .success 0] emptyState).statuses = []
    ∧ (runTrace 500 none
      [.rqDepth "default" (.error "ConnectionError") .success 0,
        .rqFailed "default" (.ok 5) .success 0] emptyState).err =
      some "ConnectionError" :=
  ⟨rfl, rfl⟩

/-- C4 (amended): only the Celery monitor's guarded scans catch backend
read errors.  An error in an RQ read (`llen`, `scard`, `Worker.all`) or in
the Celery depth `llen` propagates uncaught and aborts the cycle, leaving
the remaining metrics unevaluated.  The Celery worker scan swallows its
error and the cycle continues, but the check reports the partially
collected count — `"critical"`, not `"ok"`, when the scan failed before
yielding any key; the Celery active-task scan swallows its error and
reports `"ok"`. -/
theorem C4_read_error_handling (th : Nat) (wh : Option String) (q : String)
    (msg : String) (post : WebhookResult) (now : Timestamp)
    (s : AlertState) (rest : List CheckEvent) (keys : List String) :
    runTrace th wh (.rqDepth q (.error msg) post now :: rest) s =
      ⟨s, [], [], [], some msg⟩
    ∧ runTrace th wh (.rqFailed q (.error msg) post now :: rest) s =
      ⟨s, [], [], [], some msg⟩
    ∧ runTrace th wh (.rqWorkers q (.error msg) post now :: rest) s =
      ⟨s, [], [], [], some msg⟩
    ∧ runTrace th wh (.celDepth q (.error msg) post now :: rest) s =
      ⟨s, [], [], [], some msg⟩
    ∧ (runTrace th wh (.celWorkers keys (some msg) post now :: rest)
        s).statuses =
      (celery_check_workers wh post keys (some msg) now s).status ::
        (runTrace th wh rest
          (celery_check_workers wh post keys (some msg) now s).state).statuses
    ∧ (celery_check_workers wh post [] (some msg) now s).status.status =
      "critical"
    ∧ (check_active_tasks (some msg)).status = "ok" := by
  refine ⟨rfl, rfl, rfl, rfl, rfl, ?_, rfl⟩
  rw [celery_check_workers_status]
  rfl

end QueueMonitor
